import Mathlib

/-!
Shallow embedding of the config-validators repository: the structured
error model (`src/exceptions.py`), the validator registry
(`src/cross_config_validations/validators/__init__.py`), the validation
runner (`src/cross_config_validations/validations_runner.py`), the config
loader (`src/config_loader.py`) and the feature/subfeature referential
validator (`src/cross_config_validations/feature_subfeature_validator.py`),
together with theorems settling the specification's claims about them.
-/

namespace ConfigValidators

/-- Decidable equality of `Except` values, needed to evaluate the
embedded operations on concrete inputs. -/
instance {E A : Type} [DecidableEq E] [DecidableEq A] : DecidableEq (Except E A) :=
  fun x y =>
    match x, y with
    | Except.error a, Except.error b =>
      match decEq a b with
      | isTrue h => isTrue (h ▸ rfl)
      | isFalse h => isFalse (fun hc => h (Except.error.inj hc))
    | Except.ok a, Except.ok b =>
      match decEq a b with
      | isTrue h => isTrue (h ▸ rfl)
      | isFalse h => isFalse (fun hc => h (Except.ok.inj hc))
    | Except.error _, Except.ok _ => isFalse (fun hc => Except.noConfusion hc)
    | Except.ok _, Except.error _ => isFalse (fun hc => Except.noConfusion hc)

/-- Python's `sep.join(parts)`: the parts interleaved with the separator
(empty string on the empty list, no leading or trailing separator). -/
def pyJoin (sep : String) : List String → String
  | [] => ""
  | [s] => s
  | s :: rest => s ++ sep ++ pyJoin sep rest

/-- Class `BaseException` of `src/exceptions.py`: a message (`error_msg`)
plus keyword context attributes (`_error_kwargs`) in insertion order.
Attribute values are modelled by the string `str()` produces for them,
since the code only ever reads them back through `str`. -/
structure BaseException where
  error_msg : String
  error_kwargs : List (String × String)
  deriving DecidableEq, Repr

/-- Method `BaseException.__str__`: `"ERROR: " + error_msg + "\n" +
"\n".join(f"{k}={v}" for k, v in kwargs)` (the f-string braces stand for
the joined `key=value` pairs). -/
def BaseException.toStr (e : BaseException) : String :=
  "ERROR: " ++ e.error_msg ++ "\n" ++
    pyJoin "\n" (e.error_kwargs.map (fun kv => kv.1 ++ "=" ++ kv.2))

/-- The divider `BaseException.group_errors` puts between members:
`_LINESEPARATOR * 80` with `_LINESEPARATOR = "#"`. -/
def lineSeparatorRow : String := String.mk (List.replicate 80 '#')

/-- Classmethod `BaseException.group_errors`: builds one exception whose message is a
leading newline followed by the members' `str()` forms joined by the
divider line; the constructed exception is `cls(msg)`, i.e. it carries no
keyword attributes and no reference to the member errors. -/
def BaseException.group_errors (errors : List BaseException) : BaseException :=
  { error_msg :=
      "\n" ++ pyJoin ("\n" ++ lineSeparatorRow ++ "\n") (errors.map BaseException.toStr),
    error_kwargs := [] }

/-- One line per context attribute as `key=value`, each on its own new
line, in insertion order.  Written from the spec's words, for comparison
with the code's rendering. -/
def specAttrLines : List (String × String) → String
  | [] => ""
  | kv :: rest => "\n" ++ kv.1 ++ "=" ++ kv.2 ++ specAttrLines rest

/-- Rendering as the spec describes it: `"ERROR: " + message` followed by
one line per context attribute as `key=value`, in insertion order, and
nothing else.  Stated from the spec's words, to be compared with
`BaseException.toStr`, which is the code's rendering. -/
def renderSpec (e : BaseException) : String :=
  "ERROR: " ++ e.error_msg ++ specAttrLines e.error_kwargs

section Runner

variable {κ V E : Type}

/-- One entry of the `VALIDATORS` registry
(`src/cross_config_validations/validators/__init__.py`): the registered
function together with the tuple of required config types derived from
its signature.  The function is modelled on the argument list the runner
builds for it. -/
structure Registration (κ V E : Type) where
  func : List V → List E
  required : List κ

/-- Function `_run_validations` of `src/cross_config_validations/validations_runner.py`:
fold over the registry in registration order; for each entry resolve
`available_configs.get(t, None)` for every required type `t` in declared
order, skip the validator when `None` is among the resolved arguments
(`if None in validation_args: continue`), and otherwise extend the
accumulated error list with the validator's result. -/
def _run_validations (regs : List (Registration κ V E))
    (available_configs : κ → Option V) : List E :=
  regs.foldl
    (fun validation_errors r =>
      let validation_args := r.required.map available_configs
      if validation_args.any Option.isNone then validation_errors
      else validation_errors ++ r.func validation_args.reduceOption)
    []

/-- Function `run_validations`: runs `_run_validations` and, in strict mode with a
non-empty error list, raises `BaseException.group_errors(errors)`. -/
def run_validations (regs : List (Registration κ V BaseException))
    (available_configs : κ → Option V) (should_raise_on_error : Bool) :
    Except BaseException (List BaseException) :=
  let errors := _run_validations regs available_configs
  if should_raise_on_error && !errors.isEmpty then
    Except.error (BaseException.group_errors errors)
  else
    Except.ok errors

end Runner

section Registry

/-- A Python class, as far as `register_validation` observes one: its
name and whether it is a subclass of `BaseConfig`
(`issubclass(c, BaseConfig)`). -/
structure PyClass where
  name : String
  isSubclassOfBaseConfig : Bool
  deriving DecidableEq, Repr

/-- A parameter's declared type as `inspect.signature` reports it: either
an actual class, or some non-class object (a string literal, a
parameterized generic, a `typing` construct, ...), on which `issubclass`
raises `TypeError`. -/
inductive PyAnnot where
  | cls (c : PyClass)
  | notCls (showing : String)
  deriving DecidableEq, Repr

/-- A parameter with no annotation at all: `inspect.signature` reports
`inspect.Parameter.empty` for it, and in CPython that sentinel `_empty`
is itself a class (so `issubclass(_empty, BaseConfig)` returns `False`
instead of raising). -/
def emptyAnnot : PyAnnot := PyAnnot.cls { name := "_empty", isSubclassOfBaseConfig := false }

/-- One entry of `inspect.signature(func).parameters`, in declaration
order: the parameter name and its annotation (`annot` models
`param.annotation`). -/
structure PyParam where
  name : String
  annot : PyAnnot
  deriving DecidableEq, Repr

/-- A Python function as registration observes it: `__qualname__`,
`__name__`, and its signature's parameters in declaration order. -/
structure FuncSig where
  qualname : String
  name : String
  params : List PyParam
  deriving DecidableEq, Repr

/-- Whether the annotation is an actual class (so that `issubclass` can
test it without raising). -/
def PyAnnot.isClassAnnot : PyAnnot → Bool
  | PyAnnot.cls _ => true
  | PyAnnot.notCls _ => false

/-- Whether the annotation is a class that subclasses `BaseConfig`, i.e.
a config type. -/
def PyAnnot.isConfigSubclass : PyAnnot → Bool
  | PyAnnot.cls c => c.isSubclassOfBaseConfig
  | PyAnnot.notCls _ => false

/-- Evaluating `issubclass(annotation, BaseConfig)`: returns the boolean
for a class annotation and raises `TypeError` (modelled by `.error ()`)
for a non-class annotation. -/
def issubclassBaseConfig : PyAnnot → Except Unit Bool
  | PyAnnot.cls c => Except.ok c.isSubclassOfBaseConfig
  | PyAnnot.notCls _ => Except.error ()

/-- The generator expression
`any(not issubclass(param.annotation, BaseConfig) for param in params)`:
left-to-right and short-circuiting on the first parameter that fails the
subclass test; a `TypeError` from `issubclass` propagates. -/
def anyNotSubclass : List PyParam → Except Unit Bool
  | [] => Except.ok false
  | p :: rest =>
    match issubclassBaseConfig p.annot with
    | Except.error _ => Except.error ()
    | Except.ok b => if !b then Except.ok true else anyNotSubclass rest

/-- The list comprehension
`[param for param in params if not issubclass(param.annotation, BaseConfig)]`:
traverses every parameter (no short-circuit), so a `TypeError` from
`issubclass` on any parameter propagates. -/
def invalidParams : List PyParam → Except Unit (List PyParam)
  | [] => Except.ok []
  | p :: rest =>
    match issubclassBaseConfig p.annot with
    | Except.error _ => Except.error ()
    | Except.ok b =>
      match invalidParams rest with
      | Except.error _ => Except.error ()
      | Except.ok tail => Except.ok (if !b then p :: tail else tail)

/-- The error message of `InvalidValidationFunctionSignature` raised by
`register_validation` (with `BaseConfig.__qualname__ = "BaseConfig"`). -/
def invalidSignatureMsg (func : FuncSig) : String :=
  "Function " ++ func.qualname ++
    " has parameters in its signature that are not subclasses of BaseConfig"

/-- What `register_validation` can raise:  a plain `TypeError` escaping
from `issubclass`, or the structured `InvalidValidationFunctionSignature`
whose kwargs name the function (`func=func.__name__`) and the offending
parameters (`invalid_parameters=[...]`). -/
inductive RegError where
  | typeError
  | invalidSignature (err_msg : String) (func : String) (invalid_parameters : List PyParam)
  deriving DecidableEq, Repr

/-- One entry appended to `VALIDATORS`: the function and
`tuple(param.annotation for param in parameters)`. -/
structure RegEntry where
  func : FuncSig
  required : List PyAnnot
  deriving DecidableEq, Repr

/-- Function `register_validation` of
`src/cross_config_validations/validators/__init__.py`.  The result pairs
the `VALIDATORS` registry after the call (unchanged whenever an exception
is raised, because the `raise` happens before the `append`) with either
the raised error or the returned function (returned unchanged).
Evaluation order mirrors the source: first the short-circuiting `any`
over the parameters; if it found an offending parameter, the
`invalid_parameters` comprehension re-traverses all parameters while
building the structured error, and a `TypeError` arising there
propagates in place of the structured error. -/
def register_validation (VALIDATORS : List RegEntry) (func : FuncSig) :
    List RegEntry × Except RegError FuncSig :=
  match anyNotSubclass func.params with
  | Except.error _ => (VALIDATORS, Except.error RegError.typeError)
  | Except.ok true =>
    match invalidParams func.params with
    | Except.error _ => (VALIDATORS, Except.error RegError.typeError)
    | Except.ok bad =>
      (VALIDATORS,
        Except.error (RegError.invalidSignature (invalidSignatureMsg func) func.name bad))
  | Except.ok false =>
    (VALIDATORS ++ [{ func := func, required := func.params.map (fun p => p.annot) }],
      Except.ok func)

end Registry

section Loader

variable {κ V : Type}

/-- One field-level violation from a `pydantic.ValidationError`
(`e.errors()`): a message (`err["msg"]`) and a location path
(`err["loc"]`, a tuple of field/index steps, each step modelled by its
string form). -/
structure Violation where
  msg : String
  loc : List String
  deriving DecidableEq, Repr

/-- An arbitrary non-pydantic Python exception, observed only through
`str(e)`. -/
structure PyExc where
  asStr : String
  deriving DecidableEq, Repr

/-- What constructing the typed config for one recognized file does:
`json.loads(file.read_text())` followed by `config_cls(**raw)` either
succeeds, raises `pydantic.ValidationError` with a list of field-level
violations, or raises some other exception (malformed JSON, I/O, ...). -/
inductive ConstructorOutcome (V : Type) where
  | ok (config : V)
  | schemaFail (violations : List Violation)
  | otherFail (cause : PyExc)
  deriving DecidableEq, Repr

/-- One file of the configs directory: its name and what constructing its
typed config yields. -/
structure SrcFile (V : Type) where
  name : String
  outcome : ConstructorOutcome V
  deriving DecidableEq, Repr

/-- The errors `ConfigLoader` accumulates or raises, one constructor per
construction site, fields in kwarg order:
`BaseSingleConfigValidationError(msg, config_file=file.name, location=err["loc"])`
for one schema violation;
`ConfigCreationFailedError(err_msg=str(e), error=e)` for a non-schema
failure inside `_load_configs` (note: no file name among its kwargs);
`ConfigCreationFailedError(err_msg, configs_dir=configs_dir)` raised by
`load` for a missing directory. -/
inductive LoaderError where
  | singleConfig (msg : String) (config_file : String) (location : List String)
  | configCreation (err_msg : String) (error : PyExc)
  | configCreationDir (err_msg : String) (configs_dir : String)
  deriving DecidableEq, Repr

/-- Python dict assignment `d[k] = v`: replaces the value in place when
the key is present (keeping the key's position), appends otherwise. -/
def dictInsert [DecidableEq κ] : List (κ × V) → κ → V → List (κ × V)
  | [], k, v => [(k, v)]
  | kv :: rest, k, v =>
    if kv.1 = k then (k, v) :: rest else kv :: dictInsert rest k v

/-- The mutable state of a `ConfigLoader` instance: `self.configs` (a
dict from config class to instance, in insertion order) and
`self._errors`. -/
structure LoaderState (κ V : Type) where
  configs : List (κ × V)
  errors : List LoaderError
  deriving DecidableEq, Repr

/-- The body of the `for` loop of `ConfigLoader._load_configs`
(`src/config_loader.py`), for one file: skip files whose name is not a
`_MODEL_REGISTRY` key; on success store the instance under its class
(overwriting); on `pydantic.ValidationError` extend `_errors` with one
`BaseSingleConfigValidationError` per violation, carrying
`err.get("msg", ...)`, `config_file=file.name`, `location=err.get("loc", ...)`;
on any other exception append one
`ConfigCreationFailedError(err_msg=str(e), error=e)`. -/
def loadStep [DecidableEq κ] (registry : String → Option κ)
    (st : LoaderState κ V) (file : SrcFile V) : LoaderState κ V :=
  match registry file.name with
  | none => st
  | some config_cls =>
    match file.outcome with
    | ConstructorOutcome.ok config =>
      { st with configs := dictInsert st.configs config_cls config }
    | ConstructorOutcome.schemaFail violations =>
      { st with
          errors := st.errors ++
            violations.map (fun err => LoaderError.singleConfig err.msg file.name err.loc) }
    | ConstructorOutcome.otherFail e =>
      { st with errors := st.errors ++ [LoaderError.configCreation e.asStr e] }

/-- Whether a file name matches the `"*.json"` glob pattern of
`configs_dir.glob("*.json")`: it ends with `".json"` (stated on the
character list so that it evaluates on concrete names). -/
def matchesJsonGlob (name : String) : Bool :=
  (".json".toList).isSuffixOf name.toList

/-- Method `ConfigLoader._load_configs`: iterate over
`configs_dir.glob("*.json")` (modelled as the files whose name ends in
`".json"`, in directory order) applying `loadStep` to each, starting
from a fresh loader (`configs = {}`, `_errors = []`). -/
def _load_configs [DecidableEq κ] (registry : String → Option κ)
    (files : List (SrcFile V)) : LoaderState κ V :=
  (files.filter (fun f => matchesJsonGlob f.name)).foldl (loadStep registry)
    { configs := [], errors := [] }

/-- A directory as `ConfigLoader.load` observes it: its path, whether
`configs_dir.exists()`, and its files. -/
structure PyDirectory (V : Type) where
  path : String
  dirExists : Bool
  files : List (SrcFile V)
  deriving DecidableEq, Repr

/-- A raised `BaseExceptionGroup(message, exceptions)`. -/
structure RaisedGroup where
  message : String
  exceptions : List LoaderError
  deriving DecidableEq, Repr

/-- The message of the error raised for a missing configs directory. -/
def dirMissingMsg : String := "Directory specified as configs_dir argument does not exist"

/-- The message of the group raised by `load_configs` in strict mode. -/
def loadErrorsMsg : String := "Configurations load process resulted with the following errors:"

/-- Classmethod `ConfigLoader.load` composed with `load_configs`: a
missing directory raises, before the strict-mode flag is consulted, a
`BaseExceptionGroup` wrapping exactly one
`ConfigCreationFailedError(err_msg, configs_dir=configs_dir)`; otherwise
the files are loaded and, in strict mode with a non-empty error list,
`load_configs` raises a `BaseExceptionGroup` of the accumulated
errors. -/
def ConfigLoader.load [DecidableEq κ] (registry : String → Option κ)
    (configs_dir : PyDirectory V) (should_raise_on_error : Bool) :
    Except RaisedGroup (LoaderState κ V) :=
  if !configs_dir.dirExists then
    Except.error
      { message := dirMissingMsg,
        exceptions := [LoaderError.configCreationDir dirMissingMsg configs_dir.path] }
  else
    let st : LoaderState κ V := _load_configs registry configs_dir.files
    if should_raise_on_error && !st.errors.isEmpty then
      Except.error { message := loadErrorsMsg, exceptions := st.errors }
    else
      Except.ok st

end Loader

section FeatureModels

/-- Model `SingleSubFeatureConfig` of `src/models/subfeature_config.py`. -/
structure SingleSubFeatureConfig where
  name : String
  deriving DecidableEq, Repr

/-- Model `SubFeatureConfig` of `src/models/subfeature_config.py`. -/
structure SubFeatureConfig where
  subfeatures : List SingleSubFeatureConfig
  deriving DecidableEq, Repr

/-- Model `SingleFeatureConfig` of `src/models/feature_config.py`. -/
structure SingleFeatureConfig where
  name : String
  subfeature_names : List String
  deriving DecidableEq, Repr

/-- Model `FeatureConfig` of `src/models/feature_config.py`. -/
structure FeatureConfig where
  features : List SingleFeatureConfig
  deriving DecidableEq, Repr

/-- Function `validate_feature_not_reference_non_existant_subfeature` of
`src/cross_config_validations/feature_subfeature_validator.py`: one
`BaseCrossConfigValidationError` (with kwarg `undefined_subfeature`) per
element of the set difference between the referenced subfeature names and
the defined subfeature names.  Python builds both sides as sets and
iterates the difference in unspecified set order; the embedding realizes
the referenced-name set as the duplicate-free list `dedup` produces, so
each distinct name appears exactly once, in some fixed order. -/
def validate_feature_not_reference_non_existant_subfeature
    (feature_config : FeatureConfig) (subfeature_config : SubFeatureConfig) :
    List BaseException :=
  let err_msg := "Referenced subfeature is undefined"
  let all_subfeature_names := subfeature_config.subfeatures.map (fun s => s.name)
  let all_referenced_subfeatures :=
    ((feature_config.features.map (fun f => f.subfeature_names)).flatten).dedup
  let undefined_subfeatures :=
    all_referenced_subfeatures.filter (fun n => !(all_subfeature_names.contains n))
  undefined_subfeatures.map
    (fun n => { error_msg := err_msg, error_kwargs := [("undefined_subfeature", n)] })

end FeatureModels

section SpecSide

/-- The contribution of one registry entry to the runner's output: the
errors it returns when every required config resolves, nothing when the
entry is skipped.  A helper for stating and proving the runner
theorems. -/
def runContrib {κ V E : Type} (available_configs : κ → Option V)
    (r : Registration κ V E) : List E :=
  if (r.required.map available_configs).any Option.isNone then []
  else r.func (r.required.map available_configs).reduceOption

/-- All subfeature names referenced by some feature, in document order,
with multiplicity. -/
def referencedSubfeatureNames (fc : FeatureConfig) : List String :=
  (fc.features.map (fun f => f.subfeature_names)).flatten

/-- All subfeature names the subfeature config defines. -/
def definedSubfeatureNames (sc : SubFeatureConfig) : List String :=
  sc.subfeatures.map (fun s => s.name)

/-- The error the referential-integrity validator emits for one undefined
subfeature name. -/
def undefinedSubfeatureErr (n : String) : BaseException :=
  { error_msg := "Referenced subfeature is undefined",
    error_kwargs := [("undefined_subfeature", n)] }

end SpecSide

section Fixtures

/-- The config model classes `src/models` registers. -/
inductive ConfigModelClass where
  | featureConfig
  | subFeatureConfig
  | databaseConfig
  | myNewThingConfig
  deriving DecidableEq, Repr

/-- A loaded config instance, for the concrete instantiations. -/
inductive ConfigValue where
  | feature (config : FeatureConfig)
  | subfeature (config : SubFeatureConfig)
  | plain (tag : String)
  deriving DecidableEq, Repr

/-- The `_MODEL_REGISTRY` the `register_config_model` decorators of
`src/models` build. -/
def modelRegistry : String → Option ConfigModelClass := fun n =>
  if n = "FeatureConfig.json" then some ConfigModelClass.featureConfig
  else if n = "SubFeatureConfig.json" then some ConfigModelClass.subFeatureConfig
  else if n = "DatabaseConfig.json" then some ConfigModelClass.databaseConfig
  else if n = "MyNewThingConfig.json" then some ConfigModelClass.myNewThingConfig
  else none

/-- A configs mapping holding only a feature config. -/
def onlyFeatureMap : ConfigModelClass → Option ConfigValue := fun c =>
  match c with
  | ConfigModelClass.featureConfig => some (ConfigValue.plain "feature")
  | _ => none

/-- A spy validator: it records invocation by returning one marker
error. -/
def spyFunc : List ConfigValue → List BaseException := fun _ =>
  [{ error_msg := "spy invoked", error_kwargs := [] }]

/-- The spy registered with the (absent) database config as requirement. -/
def spyNeedsDatabase : Registration ConfigModelClass ConfigValue BaseException :=
  { func := spyFunc, required := [ConfigModelClass.databaseConfig] }

/-- The spy registered with the (present) feature config as requirement. -/
def spyNeedsFeature : Registration ConfigModelClass ConfigValue BaseException :=
  { func := spyFunc, required := [ConfigModelClass.featureConfig] }

/-- A first member error for aggregation. -/
def errA : BaseException := { error_msg := "m1", error_kwargs := [] }

/-- A second member error for aggregation. -/
def errB : BaseException := { error_msg := "m2", error_kwargs := [] }

/-- A single error whose message reproduces the flattened text that
grouping `errA` and `errB` produces. -/
def errCollide : BaseException :=
  { error_msg := "m1\n\n" ++ lineSeparatorRow ++ "\nERROR: m2", error_kwargs := [] }

/-- A parameterless registration that reports `errA` and `errB`. -/
def reportsTwoReg : Registration ConfigModelClass ConfigValue BaseException :=
  { func := fun _ => [errA, errB], required := [] }

/-- A parameterless registration that reports only `errCollide`. -/
def reportsCollideReg : Registration ConfigModelClass ConfigValue BaseException :=
  { func := fun _ => [errCollide], required := [] }

/-- The class `FeatureConfig` as an annotation. -/
def featureConfigAnnot : PyAnnot :=
  PyAnnot.cls { name := "FeatureConfig", isSubclassOfBaseConfig := true }

/-- The class `SubFeatureConfig` as an annotation. -/
def subFeatureConfigAnnot : PyAnnot :=
  PyAnnot.cls { name := "SubFeatureConfig", isSubclassOfBaseConfig := true }

/-- The class `int` as an annotation: a class, not a `BaseConfig`
subclass. -/
def intAnnot : PyAnnot := PyAnnot.cls { name := "int", isSubclassOfBaseConfig := false }

/-- A string literal used as annotation: not a class at all. -/
def strLitAnnot : PyAnnot := PyAnnot.notCls "SomeConfig"

/-- The function of the unit test `test_register__validation`: a single
parameter `num: int`. -/
def badIntFunc : FuncSig :=
  { qualname := "test_register__validation.<locals>.validation_with_non_config_objs_in_signature",
    name := "validation_with_non_config_objs_in_signature",
    params := [{ name := "num", annot := intAnnot }] }

/-- The signature of the registered validator
`validate_feature_not_reference_non_existant_subfeature`. -/
def goodValidatorFunc : FuncSig :=
  { qualname := "validate_feature_not_reference_non_existant_subfeature",
    name := "validate_feature_not_reference_non_existant_subfeature",
    params := [{ name := "feature_config", annot := featureConfigAnnot },
               { name := "subfeature_config", annot := subFeatureConfigAnnot }] }

/-- A function with one parameter that carries no annotation. -/
def unannotatedFunc : FuncSig :=
  { qualname := "unannotated_validation", name := "unannotated_validation",
    params := [{ name := "num", annot := emptyAnnot }] }

/-- A function with one parameter annotated by a non-class. -/
def strAnnotFunc : FuncSig :=
  { qualname := "str_annotated_validation", name := "str_annotated_validation",
    params := [{ name := "cfg", annot := strLitAnnot }] }

/-- The `FeatureConfig.json` content of the spec's concrete scenario:
one feature `f1` referencing `sub_1` and `sub_3`. -/
def featureConfigExample : FeatureConfig :=
  { features := [{ name := "f1", subfeature_names := ["sub_1", "sub_3"] }] }

/-- The `SubFeatureConfig.json` content of the spec's concrete scenario:
only `sub_1` is defined. -/
def subFeatureConfigExample : SubFeatureConfig :=
  { subfeatures := [{ name := "sub_1" }] }

/-- A subfeature config defining every name the example references. -/
def subFeatureConfigComplete : SubFeatureConfig :=
  { subfeatures := [{ name := "sub_1" }, { name := "sub_3" }] }

/-- A `FeatureConfig.json` that fails schema validation with two
field-level violations. -/
def badFeatureFile : SrcFile ConfigValue :=
  { name := "FeatureConfig.json",
    outcome := ConstructorOutcome.schemaFail
      [{ msg := "subfeature_names cannot be empty.",
         loc := ["features", "0", "subfeature_names"] },
       { msg := "Field required", loc := ["features", "1", "name"] }] }

/-- A recognized file whose raw content is malformed JSON. -/
def badJsonFeatureFile : SrcFile ConfigValue :=
  { name := "FeatureConfig.json",
    outcome := ConstructorOutcome.otherFail
      { asStr := "Expecting value: line 1 column 1 (char 0)" } }

/-- A second recognized file failing with the same underlying cause but a
different file name. -/
def badJsonSubFeatureFile : SrcFile ConfigValue :=
  { name := "SubFeatureConfig.json",
    outcome := ConstructorOutcome.otherFail
      { asStr := "Expecting value: line 1 column 1 (char 0)" } }

/-- A directory path that does not exist. -/
def missingDir : PyDirectory ConfigValue :=
  { path := "./no_such_dir", dirExists := false, files := [] }

end Fixtures

section RunnerTheorems

variable {κ V E : Type}

/-- Helper: the `None in validation_args` test is the negation of "every
required type resolves to an instance". -/
theorem anyIsNone_eq_not_all (m : κ → Option V) (l : List κ) :
    (l.map m).any Option.isNone = !(l.all fun t => (m t).isSome) := by
  induction l with
  | nil => rfl
  | cons a t ih => cases h : m a <;> simp [List.any_cons, List.all_cons, ih, h]

/-- Helper: unwrapping the resolved optional arguments in declared order
is `filterMap`. -/
theorem reduceOption_map_eq_filterMap (m : κ → Option V) (l : List κ) :
    (l.map m).reduceOption = l.filterMap m := by
  simp [List.reduceOption, List.filterMap_map]

/-- Helper: `_run_validations` is the flattened list of the per-entry
contributions, in registration order. -/
theorem _run_validations_eq_contrib (m : κ → Option V)
    (regs : List (Registration κ V E)) :
    _run_validations regs m = (regs.map (runContrib m)).flatten := by
  have h : ∀ (rs : List (Registration κ V E)) (acc : List E),
      rs.foldl
        (fun validation_errors r =>
          let validation_args := r.required.map m
          if validation_args.any Option.isNone then validation_errors
          else validation_errors ++ r.func validation_args.reduceOption) acc =
        acc ++ (rs.map (runContrib m)).flatten := by
    intro rs
    induction rs with
    | nil => intro acc; simp
    | cons r rest ih =>
      intro acc
      simp only [List.foldl_cons, List.map_cons, List.flatten_cons]
      rw [ih]
      cases hc : (r.required.map m).any Option.isNone <;>
        simp [runContrib, hc, List.append_assoc]
  simpa [_run_validations] using h regs []

/-- **C1**: the runner invokes a registered validator exactly when every
config type in its required tuple is present in the supplied mapping;
when any required type is absent the validator is skipped entirely,
contributing no errors and leaving the run as if its registration were
not there at all. -/
theorem runner_invokes_validator_iff_required_present (m : κ → Option V)
    (pre post : List (Registration κ V E)) (r : Registration κ V E) :
    ((∀ t ∈ r.required, (m t).isSome) →
      _run_validations (pre ++ r :: post) m =
        _run_validations pre m ++ r.func (r.required.filterMap m) ++
          _run_validations post m) ∧
    ((¬ ∀ t ∈ r.required, (m t).isSome) →
      _run_validations (pre ++ r :: post) m = _run_validations (pre ++ post) m) := by
  constructor
  · intro h
    have hall : (r.required.map m).any Option.isNone = false := by
      rw [anyIsNone_eq_not_all]
      simp only [Bool.not_eq_eq_eq_not, Bool.not_false, List.all_eq_true]
      intro t ht
      exact h t ht
    simp [_run_validations_eq_contrib, runContrib, hall,
      reduceOption_map_eq_filterMap, List.append_assoc]
  · intro h
    have hb : (r.required.all fun t => (m t).isSome) = false := by
      cases hb2 : r.required.all (fun t => (m t).isSome)
      · rfl
      · exact absurd (fun t ht => List.all_eq_true.mp hb2 t ht) h
    have hall : (r.required.map m).any Option.isNone = true := by
      rw [anyIsNone_eq_not_all, hb]
      rfl
    simp [_run_validations_eq_contrib, runContrib, hall]

/-- Witness for C1: with only the feature config present, the spy
requiring the database config is skipped (the run equals the run without
it), and the spy requiring the feature config is invoked with its
resolved instances. -/
theorem runner_invokes_validator_iff_required_present_witness :
    _run_validations ([] ++ spyNeedsDatabase :: []) onlyFeatureMap =
      _run_validations ([] ++ []) onlyFeatureMap ∧
    _run_validations ([] ++ spyNeedsFeature :: []) onlyFeatureMap =
      _run_validations [] onlyFeatureMap ++
        spyNeedsFeature.func (spyNeedsFeature.required.filterMap onlyFeatureMap) ++
        _run_validations [] onlyFeatureMap :=
  ⟨(runner_invokes_validator_iff_required_present onlyFeatureMap [] [] spyNeedsDatabase).2
      (by decide),
    (runner_invokes_validator_iff_required_present onlyFeatureMap [] [] spyNeedsFeature).1
      (by decide)⟩

/-- **C2**: the runner attempts every registered validator in
registration order; each eligible validator is invoked with its config
instances in the exact order its signature declared them, and the result
is the concatenation of all eligible validators' error lists in that
order, each validator's internal ordering preserved, with no early
stop. -/
theorem runner_returns_concatenation_in_order (m : κ → Option V)
    (regs : List (Registration κ V E)) :
    _run_validations regs m =
      (regs.map (fun r =>
        if r.required.all (fun t => (m t).isSome) then r.func (r.required.filterMap m)
        else [])).flatten := by
  rw [_run_validations_eq_contrib]
  congr 1
  apply List.map_congr_left
  intro r _
  simp only [runContrib, anyIsNone_eq_not_all, reduceOption_map_eq_filterMap]
  cases hall : r.required.all (fun t => (m t).isSome) <;> simp [hall]

end RunnerTheorems

section RegistryTheorems

/-- Helper: on a parameter list whose annotations are all classes, the
short-circuiting `any` computes, without raising, whether some parameter
fails the `BaseConfig` subclass test. -/
theorem anyNotSubclass_eq_of_classes (params : List PyParam)
    (h : ∀ p ∈ params, p.annot.isClassAnnot) :
    anyNotSubclass params =
      Except.ok (params.any (fun p => !p.annot.isConfigSubclass)) := by
  induction params with
  | nil => rfl
  | cons p rest ih =>
    have hp : p.annot.isClassAnnot = true := h p (by simp)
    match hann : p.annot with
    | PyAnnot.notCls s => rw [hann] at hp; exact absurd hp (by simp [PyAnnot.isClassAnnot])
    | PyAnnot.cls c =>
      have hrest := ih (fun q hq => h q (by simp [hq]))
      cases hsub : c.isSubclassOfBaseConfig <;>
        simp [anyNotSubclass, issubclassBaseConfig, hann, hsub, hrest,
          PyAnnot.isConfigSubclass, List.any_cons]

/-- Helper: on a parameter list whose annotations are all classes, the
`invalid_parameters` comprehension computes, without raising, the
parameters failing the `BaseConfig` subclass test. -/
theorem invalidParams_eq_of_classes (params : List PyParam)
    (h : ∀ p ∈ params, p.annot.isClassAnnot) :
    invalidParams params =
      Except.ok (params.filter (fun p => !p.annot.isConfigSubclass)) := by
  induction params with
  | nil => rfl
  | cons p rest ih =>
    have hp : p.annot.isClassAnnot = true := h p (by simp)
    match hann : p.annot with
    | PyAnnot.notCls s => rw [hann] at hp; exact absurd hp (by simp [PyAnnot.isClassAnnot])
    | PyAnnot.cls c =>
      have hrest := ih (fun q hq => h q (by simp [hq]))
      cases hsub : c.isSubclassOfBaseConfig <;>
        simp [invalidParams, issubclassBaseConfig, hann, hsub, hrest,
          PyAnnot.isConfigSubclass, List.filter_cons]

/-- **C3**: over functions all of whose parameter annotations are
classes, registration with some non-config-typed parameter fails with the
structured Invalid-Validator-Signature error naming the function and
exactly the offending parameters while leaving the registry unchanged,
and registration of a function whose parameters are all config types
appends `(function, tuple of parameter types)` to the registry and
returns the function unchanged. -/
theorem register_validation_signature_contract (VALIDATORS : List RegEntry)
    (func : FuncSig) (hcls : ∀ p ∈ func.params, p.annot.isClassAnnot) :
    ((∃ p ∈ func.params, ¬ p.annot.isConfigSubclass) →
      register_validation VALIDATORS func =
        (VALIDATORS,
          Except.error (RegError.invalidSignature (invalidSignatureMsg func) func.name
            (func.params.filter (fun p => !p.annot.isConfigSubclass))))) ∧
    ((∀ p ∈ func.params, p.annot.isConfigSubclass) →
      register_validation VALIDATORS func =
        (VALIDATORS ++ [{ func := func, required := func.params.map (fun p => p.annot) }],
          Except.ok func)) := by
  constructor
  · intro hex
    have hany : func.params.any (fun p => !p.annot.isConfigSubclass) = true := by
      rw [List.any_eq_true]
      rcases hex with ⟨p, hp, hnot⟩
      exact ⟨p, hp, by simpa using hnot⟩
    simp [register_validation, anyNotSubclass_eq_of_classes _ hcls,
      invalidParams_eq_of_classes _ hcls, hany]
  · intro hall
    have hany : func.params.any (fun p => !p.annot.isConfigSubclass) = false := by
      rw [List.any_eq_false]
      intro p hp
      simpa using hall p hp
    simp [register_validation, anyNotSubclass_eq_of_classes _ hcls, hany]

/-- Witness for C3: the unit test's function with parameter `num: int`
is rejected with the structured error naming it and its parameter, the
registry stays empty; the feature/subfeature validator's signature is
accepted, appended, and the function is returned unchanged. -/
theorem register_validation_signature_contract_witness :
    register_validation [] badIntFunc =
      ([],
        Except.error (RegError.invalidSignature (invalidSignatureMsg badIntFunc)
          badIntFunc.name
          (badIntFunc.params.filter (fun p => !p.annot.isConfigSubclass)))) ∧
    register_validation [] goodValidatorFunc =
      ([{ func := goodValidatorFunc,
          required := goodValidatorFunc.params.map (fun p => p.annot) }],
        Except.ok goodValidatorFunc) :=
  ⟨(register_validation_signature_contract [] badIntFunc (by decide)).1 (by decide),
    (register_validation_signature_contract [] goodValidatorFunc (by decide)).2 (by decide)⟩

/-- Helper: the comprehension raises `TypeError` as soon as some
parameter's annotation is not a class. -/
theorem invalidParams_error_of_not_class (params : List PyParam)
    (h : ∃ p ∈ params, ¬ p.annot.isClassAnnot) :
    invalidParams params = Except.error () := by
  induction params with
  | nil => simp at h
  | cons p rest ih =>
    match hann : p.annot with
    | PyAnnot.notCls s => simp [invalidParams, issubclassBaseConfig, hann]
    | PyAnnot.cls c =>
      have hrest : ∃ q ∈ rest, ¬ q.annot.isClassAnnot := by
        rcases h with ⟨q, hq, hnq⟩
        rcases List.mem_cons.1 hq with rfl | hq'
        · rw [hann] at hnq; exact absurd rfl hnq
        · exact ⟨q, hq', hnq⟩
      simp [invalidParams, issubclassBaseConfig, hann, ih hrest]

/-- Helper: when the short-circuiting `any` completes with `False`,
every parameter's annotation was a class passing the subclass test. -/
theorem anyNotSubclass_ok_false (params : List PyParam)
    (h : anyNotSubclass params = Except.ok false) :
    ∀ p ∈ params, p.annot.isClassAnnot := by
  induction params with
  | nil => simp
  | cons p rest ih =>
    intro q hq
    match hann : p.annot with
    | PyAnnot.notCls s => simp [anyNotSubclass, issubclassBaseConfig, hann] at h
    | PyAnnot.cls c =>
      rcases List.mem_cons.1 hq with rfl | hq'
      · simp [hann, PyAnnot.isClassAnnot]
      · cases hsub : c.isSubclassOfBaseConfig
        · simp [anyNotSubclass, issubclassBaseConfig, hann, hsub] at h
        · simp only [anyNotSubclass, issubclassBaseConfig, hann, hsub] at h
          exact ih (by simpa using h) q hq'

/-- Amended C10: for every function with a parameter whose annotation is
not a class, registration raises the plain `TypeError` coming from
`issubclass`, whichever evaluation path reaches that parameter first, and
the registry is unchanged. -/
theorem register_validation_non_class_param_raises_type_error
    (VALIDATORS : List RegEntry) (func : FuncSig)
    (h : ∃ p ∈ func.params, ¬ p.annot.isClassAnnot) :
    register_validation VALIDATORS func = (VALIDATORS, Except.error RegError.typeError) := by
  match hres : anyNotSubclass func.params with
  | Except.error u => simp [register_validation, hres]
  | Except.ok true =>
    simp [register_validation, hres, invalidParams_error_of_not_class func.params h]
  | Except.ok false =>
    rcases h with ⟨p, hp, hnp⟩
    exact absurd (anyNotSubclass_ok_false func.params hres p hp) hnp

/-- Witness for the amended C10: a validator with one parameter
annotated by a string literal raises the plain `TypeError`. -/
theorem register_validation_non_class_param_raises_type_error_witness :
    register_validation [] strAnnotFunc = ([], Except.error RegError.typeError) :=
  register_validation_non_class_param_raises_type_error [] strAnnotFunc (by decide)

/-- Counterexample to C10 as stated: a function with one parameter that
has no annotation at all does not raise the plain `TypeError`; its
annotation is the CPython sentinel class `_empty`, which merely fails the
subclass test, so registration raises the structured
Invalid-Validator-Signature error naming the parameter. -/
theorem register_validation_unannotated_param_cex :
    register_validation [] unannotatedFunc ≠ ([], Except.error RegError.typeError) ∧
    register_validation [] unannotatedFunc =
      ([],
        Except.error (RegError.invalidSignature (invalidSignatureMsg unannotatedFunc)
          unannotatedFunc.name unannotatedFunc.params)) :=
  ⟨by decide, by decide⟩

end RegistryTheorems

section LoaderTheorems

variable {κ V : Type}

/-- **C4**: processing a recognized file whose typed-config constructor
fails schema validation with K field-level violations appends exactly K
Single-Config Errors, in order, each carrying the violation's message,
the file name and the violation's location path; it stores nothing in the
configs mapping, and the load loop continues with the next file. -/
theorem loader_schema_failure_emits_one_error_per_violation [DecidableEq κ]
    (registry : String → Option κ) (st : LoaderState κ V) (file : SrcFile V)
    (config_cls : κ) (violations : List Violation)
    (hreg : registry file.name = some config_cls)
    (hout : file.outcome = ConstructorOutcome.schemaFail violations) :
    (loadStep registry st file).errors =
      st.errors ++ violations.map
        (fun err => LoaderError.singleConfig err.msg file.name err.loc) ∧
    (loadStep registry st file).errors.length = st.errors.length + violations.length ∧
    (loadStep registry st file).configs = st.configs ∧
    ∀ rest : List (SrcFile V),
      (file :: rest).foldl (loadStep registry) st =
        rest.foldl (loadStep registry) (loadStep registry st file) := by
  refine ⟨?_, ?_, ?_, fun rest => rfl⟩ <;> simp [loadStep, hreg, hout]

/-- Witness for C4: loading `badFeatureFile` (recognized, two schema
violations) from a fresh loader appends exactly its two Single-Config
Errors, each named after the file, and stores no config. -/
theorem loader_schema_failure_emits_one_error_per_violation_witness :
    (loadStep modelRegistry { configs := [], errors := [] } badFeatureFile).errors =
      [] ++ [LoaderError.singleConfig "subfeature_names cannot be empty."
              "FeatureConfig.json" ["features", "0", "subfeature_names"],
            LoaderError.singleConfig "Field required"
              "FeatureConfig.json" ["features", "1", "name"]] ∧
    (loadStep modelRegistry { configs := [], errors := [] } badFeatureFile).errors.length =
      List.length ([] : List LoaderError) + 2 ∧
    (loadStep modelRegistry { configs := [], errors := [] } badFeatureFile).configs =
      ([] : List (ConfigModelClass × ConfigValue)) := by
  have h := loader_schema_failure_emits_one_error_per_violation modelRegistry
    { configs := [], errors := [] } badFeatureFile ConfigModelClass.featureConfig
    [{ msg := "subfeature_names cannot be empty.",
       loc := ["features", "0", "subfeature_names"] },
     { msg := "Field required", loc := ["features", "1", "name"] }]
    (by decide) (by decide)
  exact ⟨h.1, h.2.1, h.2.2.1⟩

/-- Amended C6: processing a recognized file that fails with a structural
decode failure or any non-schema exception appends exactly one
Config-Creation Error whose message is `str(cause)` and whose single
context attribute is the cause itself — the file name is not among its
attributes — stores nothing in the configs mapping, and the load loop
continues with the next file. -/
theorem loader_other_failure_emits_one_creation_error [DecidableEq κ]
    (registry : String → Option κ) (st : LoaderState κ V) (file : SrcFile V)
    (config_cls : κ) (cause : PyExc)
    (hreg : registry file.name = some config_cls)
    (hout : file.outcome = ConstructorOutcome.otherFail cause) :
    (loadStep registry st file).errors =
      st.errors ++ [LoaderError.configCreation cause.asStr cause] ∧
    (loadStep registry st file).configs = st.configs ∧
    ∀ rest : List (SrcFile V),
      (file :: rest).foldl (loadStep registry) st =
        rest.foldl (loadStep registry) (loadStep registry st file) := by
  refine ⟨?_, ?_, fun rest => rfl⟩ <;> simp [loadStep, hreg, hout]

/-- Witness for the amended C6: a recognized file with malformed JSON
content yields exactly the one creation error built from its cause. -/
theorem loader_other_failure_emits_one_creation_error_witness :
    (loadStep modelRegistry { configs := [], errors := [] } badJsonFeatureFile).errors =
      [] ++ [LoaderError.configCreation "Expecting value: line 1 column 1 (char 0)"
              { asStr := "Expecting value: line 1 column 1 (char 0)" }] ∧
    (loadStep modelRegistry { configs := [], errors := [] } badJsonFeatureFile).configs =
      ([] : List (ConfigModelClass × ConfigValue)) := by
  have h := loader_other_failure_emits_one_creation_error modelRegistry
    { configs := [], errors := [] } badJsonFeatureFile ConfigModelClass.featureConfig
    { asStr := "Expecting value: line 1 column 1 (char 0)" } (by decide) (by decide)
  exact ⟨h.1, h.2.1⟩

/-- Counterexample to C6 as stated: the Config-Creation Error emitted for
a non-schema failure does not carry the file name — two directories whose
single failing files differ only in their (registered) names produce
identical error lists. -/
theorem loader_creation_error_carries_no_file_name_cex :
    (_load_configs modelRegistry [badJsonFeatureFile]).errors =
      (_load_configs modelRegistry [badJsonSubFeatureFile]).errors ∧
    badJsonFeatureFile.name ≠ badJsonSubFeatureFile.name :=
  ⟨by decide, by decide⟩

/-- **C9**: on a directory that does not exist, `ConfigLoader.load`
raises a `BaseExceptionGroup` wrapping exactly one Config-Creation Error
(carrying the attempted path), whatever the value of
`should_raise_on_error`, and never returns a loader. -/
theorem load_missing_dir_always_raises [DecidableEq κ] (registry : String → Option κ)
    (configs_dir : PyDirectory V) (should_raise_on_error : Bool)
    (h : configs_dir.dirExists = false) :
    ConfigLoader.load registry configs_dir should_raise_on_error =
      Except.error
        { message := dirMissingMsg,
          exceptions :=
            [LoaderError.configCreationDir dirMissingMsg configs_dir.path] } ∧
    ∀ st : LoaderState κ V,
      ConfigLoader.load registry configs_dir should_raise_on_error ≠ Except.ok st := by
  have h1 : ConfigLoader.load (V := V) registry configs_dir should_raise_on_error =
      Except.error
        { message := dirMissingMsg,
          exceptions :=
            [LoaderError.configCreationDir dirMissingMsg configs_dir.path] } := by
    simp [ConfigLoader.load, h]
  exact ⟨h1, fun st hc => by rw [h1] at hc; exact Except.noConfusion hc⟩

/-- Witness for C9: the missing directory raises the same singleton
group in non-strict and in strict mode. -/
theorem load_missing_dir_always_raises_witness :
    ConfigLoader.load (κ := ConfigModelClass) modelRegistry missingDir false =
      Except.error
        { message := dirMissingMsg,
          exceptions := [LoaderError.configCreationDir dirMissingMsg "./no_such_dir"] } ∧
    ConfigLoader.load (κ := ConfigModelClass) modelRegistry missingDir true =
      Except.error
        { message := dirMissingMsg,
          exceptions := [LoaderError.configCreationDir dirMissingMsg "./no_such_dir"] } :=
  ⟨(load_missing_dir_always_raises modelRegistry missingDir false (by decide)).1,
    (load_missing_dir_always_raises modelRegistry missingDir true (by decide)).1⟩

end LoaderTheorems

section ValidatorTheorems

/-- Helper: distinct undefined names give distinct errors. -/
theorem undefinedSubfeatureErr_injective : Function.Injective undefinedSubfeatureErr := by
  intro a b h
  simpa [undefinedSubfeatureErr] using h

/-- Helper: the validator's output, written through the spec-side
vocabulary. -/
theorem validate_eq_map_filter (fc : FeatureConfig) (sc : SubFeatureConfig) :
    validate_feature_not_reference_non_existant_subfeature fc sc =
      ((referencedSubfeatureNames fc).dedup.filter
        (fun n => !((definedSubfeatureNames sc).contains n))).map undefinedSubfeatureErr :=
  rfl

/-- **C7**: for every pair of constructed feature and subfeature configs,
the referential-integrity validator emits exactly one error carrying
`undefined_subfeature = name` for each distinct referenced-but-undefined
name, no error at all when every referenced name is defined, and nothing
besides such errors. -/
theorem validator_one_error_per_undefined_name (fc : FeatureConfig)
    (sc : SubFeatureConfig) (name : String) :
    (validate_feature_not_reference_non_existant_subfeature fc sc).count
        (undefinedSubfeatureErr name) =
      (if name ∈ referencedSubfeatureNames fc ∧ name ∉ definedSubfeatureNames sc
        then 1 else 0) ∧
    ((∀ n ∈ referencedSubfeatureNames fc, n ∈ definedSubfeatureNames sc) →
      validate_feature_not_reference_non_existant_subfeature fc sc = []) ∧
    ∀ e ∈ validate_feature_not_reference_non_existant_subfeature fc sc,
      ∃ n, e = undefinedSubfeatureErr n ∧
        n ∈ referencedSubfeatureNames fc ∧ n ∉ definedSubfeatureNames sc := by
  refine ⟨?_, ?_, ?_⟩
  · rw [validate_eq_map_filter,
      List.count_map_of_injective _ _ undefinedSubfeatureErr_injective]
    by_cases hx : name ∈ referencedSubfeatureNames fc ∧ name ∉ definedSubfeatureNames sc
    · rw [if_pos hx]
      refine List.count_eq_one_of_mem ((List.nodup_dedup _).filter _) ?_
      simp [List.mem_filter, List.mem_dedup, List.elem_iff, hx.1, hx.2]
    · rw [if_neg hx]
      refine List.count_eq_zero.2 ?_
      simp only [List.mem_filter, List.mem_dedup, Bool.not_eq_eq_eq_not, Bool.not_true,
        not_and]
      intro h1
      rcases not_and_or.1 hx with hc | hc
      · exact absurd h1 hc
      · simp only [not_not] at hc
        simp [List.elem_iff, hc]
  · intro hall
    rw [validate_eq_map_filter]
    have : ((referencedSubfeatureNames fc).dedup.filter
        (fun n => !((definedSubfeatureNames sc).contains n))) = [] := by
      rw [List.filter_eq_nil_iff]
      intro n hn
      simp [List.elem_iff, hall n (List.mem_dedup.1 hn)]
    rw [this, List.map_nil]
  · intro e he
    rw [validate_eq_map_filter] at he
    rcases List.mem_map.1 he with ⟨n, hn, rfl⟩
    rcases List.mem_filter.1 hn with ⟨hmem, hp⟩
    refine ⟨n, rfl, List.mem_dedup.1 hmem, ?_⟩
    simpa [List.elem_iff] using hp

/-- Witness for C7: on the spec's concrete scenario the validator emits
exactly one error for `sub_3` and none for `sub_1`; on a subfeature
config defining all referenced names it emits none. -/
theorem validator_one_error_per_undefined_name_witness :
    (validate_feature_not_reference_non_existant_subfeature featureConfigExample
        subFeatureConfigExample).count (undefinedSubfeatureErr "sub_3") =
      (if "sub_3" ∈ referencedSubfeatureNames featureConfigExample ∧
          "sub_3" ∉ definedSubfeatureNames subFeatureConfigExample then 1 else 0) ∧
    validate_feature_not_reference_non_existant_subfeature featureConfigExample
        subFeatureConfigComplete = [] :=
  ⟨(validator_one_error_per_undefined_name featureConfigExample
      subFeatureConfigExample "sub_3").1,
    (validator_one_error_per_undefined_name featureConfigExample
      subFeatureConfigComplete "sub_3").2.1 (by decide)⟩

end ValidatorTheorems

section ErrorModelTheorems

/-- Helper: on a non-empty attribute list, a newline followed by the
newline-join of the `key=value` texts is exactly the spec's block of one
line per attribute. -/
theorem newline_join_eq_specAttrLines (kv : String × String)
    (l : List (String × String)) :
    "\n" ++ pyJoin "\n" ((kv :: l).map (fun kv => kv.1 ++ "=" ++ kv.2)) =
      specAttrLines (kv :: l) := by
  induction l generalizing kv with
  | nil => simp [pyJoin, specAttrLines, String.append_assoc, String.append_empty]
  | cons kv2 rest ih =>
    simp only [List.map_cons, pyJoin, specAttrLines] at *
    rw [← ih kv2]
    simp [String.append_assoc]

/-- Amended C8: the canonical rendering is `"ERROR: " + message`
followed by one `key=value` line per context attribute, in insertion
order, whenever there is at least one attribute; with no attributes the
rendering is `"ERROR: " + message` followed by a trailing newline. -/
theorem error_rendering_amended (e : BaseException) :
    (e.error_kwargs ≠ [] → e.toStr = renderSpec e) ∧
    (e.error_kwargs = [] → e.toStr = renderSpec e ++ "\n") := by
  constructor
  · intro h
    match hk : e.error_kwargs with
    | [] => exact absurd hk h
    | kv :: rest =>
      rw [BaseException.toStr, renderSpec, hk, String.append_assoc,
        newline_join_eq_specAttrLines]
  · intro h
    rw [BaseException.toStr, renderSpec, h]
    simp [pyJoin, specAttrLines, String.append_empty]

/-- Witness for the amended C8: a one-attribute error renders as the
spec says; a zero-attribute error renders with the extra newline. -/
theorem error_rendering_amended_witness :
    BaseException.toStr { error_msg := "m", error_kwargs := [("config_file", "F.json")] } =
      renderSpec { error_msg := "m", error_kwargs := [("config_file", "F.json")] } ∧
    BaseException.toStr { error_msg := "m", error_kwargs := [] } =
      renderSpec { error_msg := "m", error_kwargs := [] } ++ "\n" :=
  ⟨(error_rendering_amended _).1 (by decide), (error_rendering_amended _).2 rfl⟩

/-- Counterexample to C8 as stated: with zero context attributes the
code's rendering carries a trailing newline the claimed form does not
have. -/
theorem error_rendering_trailing_newline_cex :
    BaseException.toStr { error_msg := "boom", error_kwargs := [] } ≠
      renderSpec { error_msg := "boom", error_kwargs := [] } := by
  decide

/-- C5, evaluated at a failing input: the composite built by
`group_errors` keeps no reference to its members — its attribute list is
empty, two different member lists (one error whose message happens to
spell the flattened text, versus the two real errors) yield literally
equal composites, and the strict-mode runner consequently raises
indistinguishable errors for these two different error batches. -/
theorem group_errors_flattens_members :
    (BaseException.group_errors [errA, errB]).error_kwargs = [] ∧
    BaseException.group_errors [errCollide] = BaseException.group_errors [errA, errB] ∧
    [errCollide] ≠ [errA, errB] ∧
    run_validations [reportsTwoReg] onlyFeatureMap true =
      Except.error (BaseException.group_errors [errA, errB]) ∧
    run_validations [reportsCollideReg] onlyFeatureMap true =
      run_validations [reportsTwoReg] onlyFeatureMap true ∧
    _run_validations [reportsCollideReg] onlyFeatureMap ≠
      _run_validations [reportsTwoReg] onlyFeatureMap :=
  ⟨rfl, by decide, by decide, by decide, by decide, by decide⟩

end ErrorModelTheorems

end ConfigValidators
